import Mathlib

/-!
Verification of the MCP HTTP client in `mcpshittester.py`.

The development shallowly embeds the client: `MCPHTTPClient.__init__` /
`__aenter__` / `__aexit__` become functions on a `ClientState` record, and the
body of `MCPHTTPClient._post` (lines 49-88 of the source) is split into
`buildRequest` (header construction, lines 51-59) and `postProcess`
(status check, session-id capture and body decoding, lines 62-88).  The
network is an oracle: a `RawReply` (status, header lookup, body text) is an
input, and `postProcess` returns the new client state together with
`Except MCPError Json`, where `Except.error` models the `raise RuntimeError`
paths.

Python standard-library behaviour relevant to the claims is embedded
explicitly:
* `str.splitlines` splits at any of U+000A, U+000B, U+000C, U+000D,
  U+001C, U+001D, U+001E, U+0085, U+2028, U+2029, treating CR LF as a single
  break and producing no trailing empty line (`pySplitLines`);
* `str.strip` removes the characters for which `str.isspace` is true
  (`pyStrip`);
* `json.loads` is embedded as `json_loads`: a recursive-descent parser for
  RFC-style JSON with Python's extensions (`NaN`, `Infinity`, `-Infinity`)
  and Python's strict-mode string rule, which rejects only code points
  below U+0020 inside string literals — so U+0085 and U+2028/U+2029 are
  legal inside strings even though `str.splitlines` breaks lines at them.
  Number values keep their source lexeme; `\u` escapes are decoded with
  `Char.ofNat` (surrogate pairing is not modelled, and no theorem below
  evaluates the parser on an input with escapes).
* Python slicing `text[:n]` / `line[5:]` is by characters (`strTake`,
  `strDrop`), and `dict` assignment/update is replace-or-append
  (`dictSet`, `dictUpdate`).

`aiohttp`'s case-insensitive header multidict is abstracted into the
`RawReply.headers : String → Option String` lookup function.
-/

/-- JSON values as produced by the embedded `json.loads`.  Numbers keep the
matched lexeme; objects keep their members in source order. -/
inductive Json where
  | null : Json
  | bool (b : Bool) : Json
  | num (lexeme : String) : Json
  | str (s : String) : Json
  | arr (elems : List Json) : Json
  | obj (fields : List (String × Json)) : Json

/-- Characters for which Python's `str.isspace` is true (the set stripped by
`str.strip`). -/
def pyIsSpace (c : Char) : Bool :=
  let n := c.toNat
  n == 0x09 || n == 0x0a || n == 0x0b || n == 0x0c || n == 0x0d ||
  n == 0x1c || n == 0x1d || n == 0x1e || n == 0x1f || n == 0x20 ||
  n == 0x85 || n == 0xa0 || n == 0x1680 ||
  n == 0x2000 || n == 0x2001 || n == 0x2002 || n == 0x2003 || n == 0x2004 ||
  n == 0x2005 || n == 0x2006 || n == 0x2007 || n == 0x2008 || n == 0x2009 ||
  n == 0x200a || n == 0x2028 || n == 0x2029 || n == 0x202f || n == 0x205f ||
  n == 0x3000

/-- Python `str.strip` on a character list: drop `isspace` characters at both ends. -/
def stripList (cs : List Char) : List Char :=
  ((cs.dropWhile pyIsSpace).reverse.dropWhile pyIsSpace).reverse

/-- Python `str.strip()`. -/
def pyStrip (s : String) : String := String.mk (stripList s.toList)

/-- The line boundaries honoured by Python's `str.splitlines` (CR LF is
handled separately as a single boundary). -/
def isLineBreak (c : Char) : Bool :=
  let n := c.toNat
  n == 0x0a || n == 0x0b || n == 0x0c || n == 0x0d ||
  n == 0x1c || n == 0x1d || n == 0x1e ||
  n == 0x85 || n == 0x2028 || n == 0x2029

/-- Worker for `pySplitLines`; `acc` holds the current line reversed. -/
def splitLinesAux : List Char → List Char → List String
  | [], acc => if acc.isEmpty then [] else [String.mk acc.reverse]
  | '\r' :: '\n' :: rest, acc => String.mk acc.reverse :: splitLinesAux rest []
  | c :: rest, acc =>
    if isLineBreak c then String.mk acc.reverse :: splitLinesAux rest []
    else splitLinesAux rest (c :: acc)

/-- Python `str.splitlines()`. -/
def pySplitLines (s : String) : List String := splitLinesAux s.toList []

/-- Test `listStartsWith pre cs`: true when `pre` is an initial segment of
`cs` (Python `str.startswith`). -/
def listStartsWith : List Char → List Char → Bool
  | [], _ => true
  | _ :: _, [] => false
  | p :: ps, c :: cs => p == c && listStartsWith ps cs

/-- Python `s.startswith(pre)`. -/
def pyStartsWith (s pre : String) : Bool := listStartsWith pre.toList s.toList

/-- Python slice `s[:n]` (by characters). -/
def strTake (s : String) (n : Nat) : String := String.mk (s.toList.take n)

/-- Python slice `s[n:]` (by characters). -/
def strDrop (s : String) (n : Nat) : String := String.mk (s.toList.drop n)

/-- Whitespace skipped by Python's `json` scanner (only these four). -/
def jsonWsChar (c : Char) : Bool :=
  c == ' ' || c == '\t' || c == '\n' || c == '\r'

/-- Skip JSON whitespace. -/
def skipWs (cs : List Char) : List Char := cs.dropWhile jsonWsChar

/-- Value of one hexadecimal digit. -/
def hexVal (c : Char) : Option Nat :=
  if '0' ≤ c ∧ c ≤ '9' then some (c.toNat - 48)
  else if 'a' ≤ c ∧ c ≤ 'f' then some (c.toNat - 87)
  else if 'A' ≤ c ∧ c ≤ 'F' then some (c.toNat - 55)
  else none

/-- Scan a JSON string body (the opening quote already consumed).  Python's
strict mode rejects raw code points below U+0020; everything at or above
U+0020 — including U+0085 and U+2028/U+2029 — is accepted verbatim. -/
def scanStringAux : List Char → List Char → Option (String × List Char)
  | [], _ => none
  | c :: rest, acc =>
    if c == '"' then some (String.mk acc.reverse, rest)
    else if c == '\\' then
      match rest with
      | [] => none
      | e :: rest2 =>
        if e == '"' then scanStringAux rest2 ('"' :: acc)
        else if e == '\\' then scanStringAux rest2 ('\\' :: acc)
        else if e == '/' then scanStringAux rest2 ('/' :: acc)
        else if e == 'b' then scanStringAux rest2 ('\x08' :: acc)
        else if e == 'f' then scanStringAux rest2 ('\x0c' :: acc)
        else if e == 'n' then scanStringAux rest2 ('\n' :: acc)
        else if e == 'r' then scanStringAux rest2 ('\r' :: acc)
        else if e == 't' then scanStringAux rest2 ('\t' :: acc)
        else if e == 'u' then
          match rest2 with
          | h1 :: h2 :: h3 :: h4 :: rest3 =>
            match hexVal h1, hexVal h2, hexVal h3, hexVal h4 with
            | some a, some b, some c2, some d =>
              scanStringAux rest3 (Char.ofNat (((a * 16 + b) * 16 + c2) * 16 + d) :: acc)
            | _, _, _, _ => none
          | _ => none
        else none
    else if c.toNat < 0x20 then none
    else scanStringAux rest (c :: acc)

/-- Optional fraction part of a JSON number (`.` followed by digits). -/
def scanFrac (cs : List Char) : List Char × List Char :=
  match cs with
  | '.' :: r =>
    let ds := r.takeWhile Char.isDigit
    if ds.isEmpty then ([], cs) else ('.' :: ds, r.dropWhile Char.isDigit)
  | _ => ([], cs)

/-- Optional exponent part of a JSON number. -/
def scanExp (cs : List Char) : List Char × List Char :=
  match cs with
  | e :: r =>
    if e == 'e' || e == 'E' then
      let sr :=
        match r with
        | s :: r2 => if s == '+' || s == '-' then ([s], r2) else (([] : List Char), r)
        | [] => (([] : List Char), r)
      let ds := sr.snd.takeWhile Char.isDigit
      if ds.isEmpty then ([], cs)
      else (e :: (sr.fst ++ ds), sr.snd.dropWhile Char.isDigit)
    else ([], cs)
  | [] => ([], cs)

/-- Scan a JSON number per Python's `NUMBER_RE`,
`(-?(?:0|[1-9]\d*))(\.\d+)?([eE][-+]?\d+)?`, returning the lexeme. -/
def scanNumber (cs : List Char) : Option (String × List Char) :=
  let nr :=
    match cs with
    | '-' :: r => ((['-'] : List Char), r)
    | _ => (([] : List Char), cs)
  match nr.snd with
  | c :: r =>
    if c == '0' then
      let fr := scanFrac r
      let ex := scanExp fr.snd
      some (String.mk (nr.fst ++ ['0'] ++ fr.fst ++ ex.fst), ex.snd)
    else if c.isDigit then
      let ds := (c :: r).takeWhile Char.isDigit
      let rest := (c :: r).dropWhile Char.isDigit
      let fr := scanFrac rest
      let ex := scanExp fr.snd
      some (String.mk (nr.fst ++ ds ++ fr.fst ++ ex.fst), ex.snd)
    else none
  | [] => none

mutual

/-- Scan one JSON value (Python `json` scanner `scan_once`), fuelled. -/
def scanValue : Nat → List Char → Option (Json × List Char)
  | 0, _ => none
  | _ + 1, [] => none
  | fuel + 1, c :: rest =>
    if c == '"' then
      match scanStringAux rest [] with
      | some (s, r) => some (.str s, r)
      | none => none
    else if c == '{' then
      match skipWs rest with
      | '}' :: r => some (.obj [], r)
      | cs2 => scanMembers fuel cs2 []
    else if c == '[' then
      match skipWs rest with
      | ']' :: r => some (.arr [], r)
      | cs2 => scanElems fuel cs2 []
    else if c == 'n' then
      match rest with
      | 'u' :: 'l' :: 'l' :: r => some (.null, r)
      | _ => none
    else if c == 't' then
      match rest with
      | 'r' :: 'u' :: 'e' :: r => some (.bool true, r)
      | _ => none
    else if c == 'f' then
      match rest with
      | 'a' :: 'l' :: 's' :: 'e' :: r => some (.bool false, r)
      | _ => none
    else if c == 'N' then
      match rest with
      | 'a' :: 'N' :: r => some (.num "NaN", r)
      | _ => none
    else if c == 'I' then
      match rest with
      | 'n' :: 'f' :: 'i' :: 'n' :: 'i' :: 't' :: 'y' :: r => some (.num "Infinity", r)
      | _ => none
    else if c == '-' then
      match rest with
      | 'I' :: 'n' :: 'f' :: 'i' :: 'n' :: 'i' :: 't' :: 'y' :: r =>
        some (.num "-Infinity", r)
      | _ =>
        match scanNumber (c :: rest) with
        | some (lex, r) => some (.num lex, r)
        | none => none
    else if c.isDigit then
      match scanNumber (c :: rest) with
      | some (lex, r) => some (.num lex, r)
      | none => none
    else none

/-- Scan the members of a JSON object after `{` and whitespace, the first
key expected at the head of the input. -/
def scanMembers : Nat → List Char → List (String × Json) → Option (Json × List Char)
  | 0, _, _ => none
  | fuel + 1, cs, acc =>
    match cs with
    | '"' :: r =>
      match scanStringAux r [] with
      | some (key, r1) =>
        match skipWs r1 with
        | ':' :: r2 =>
          match scanValue fuel (skipWs r2) with
          | some (v, r3) =>
            match skipWs r3 with
            | '}' :: r4 => some (.obj (acc ++ [(key, v)]), r4)
            | ',' :: r4 => scanMembers fuel (skipWs r4) (acc ++ [(key, v)])
            | _ => none
          | none => none
        | _ => none
      | none => none
    | _ => none

/-- Scan the elements of a JSON array after `[` and whitespace, the first
element expected at the head of the input. -/
def scanElems : Nat → List Char → List Json → Option (Json × List Char)
  | 0, _, _ => none
  | fuel + 1, cs, acc =>
    match scanValue fuel cs with
    | some (v, r) =>
      match skipWs r with
      | ']' :: r2 => some (.arr (acc ++ [v]), r2)
      | ',' :: r2 => scanElems fuel (skipWs r2) (acc ++ [v])
      | _ => none
    | none => none

end

/-- Python `json.loads`: skip leading whitespace, scan one value, require
only whitespace to remain; `none` models a raised `JSONDecodeError`. -/
def json_loads (s : String) : Option Json :=
  match scanValue (2 * s.length + 8) (skipWs s.toList) with
  | some (v, rest) => if (skipWs rest).isEmpty then some v else none
  | none => none

/-- The two failure shapes raised by `_post` (`raise RuntimeError(...)`):
`httpError` for `MCP HTTP {status}: {text[:300]}` and `unexpectedResponse`
for `Unexpected MCP response: {text[:200]}`.  The spec calls both
`ProtocolError`. -/
inductive MCPError where
  | httpError (status : Nat) (excerpt : String) : MCPError
  | unexpectedResponse (excerpt : String) : MCPError
deriving DecidableEq

/-- The fixed protocol version string `MCP_VERSION` of the source. -/
def MCP_VERSION : String := "2024-11-05"

/-- Mutable fields of `MCPHTTPClient`: the endpoint, the optional
`session_id`, and the optional `aiohttp.ClientSession` handle. -/
structure ClientState where
  base_url : String
  session_id : Option String
  http : Option Unit

/-- Constructor `MCPHTTPClient.__init__`. -/
def mkClient (url : String) : ClientState :=
  { base_url := url, session_id := none, http := none }

/-- Entry `MCPHTTPClient.__aenter__`: acquire the connection resource. -/
def aenter (st : ClientState) : ClientState := { st with http := some () }

/-- Exit `MCPHTTPClient.__aexit__`: close the connection only when one is held,
then clear the handle.  The boolean records whether `close()` was awaited. -/
def aexit (st : ClientState) : ClientState × Bool :=
  if st.http.isSome then ({ st with http := none }, true) else (st, false)

/-- Lookup in a Python `dict` modelled as an ordered association list. -/
def dictGet (d : List (String × String)) (k : String) : Option String :=
  (d.find? (fun p => p.fst == k)).map (fun p => p.snd)

/-- Python `d[k] = v`: overwrite in place when the key exists, else append. -/
def dictSet (d : List (String × String)) (k v : String) : List (String × String) :=
  if d.any (fun p => p.fst == k) then
    d.map (fun p => if p.fst == k then (k, v) else p)
  else d ++ [(k, v)]

/-- Python `d.update(extra)`: assign every entry of `extra` in order. -/
def dictUpdate (d : List (String × String)) (extra : List (String × String)) :
    List (String × String) :=
  extra.foldl (fun acc p => dictSet acc p.fst p.snd) d

/-- The value the last entry of `extra` with key `k` assigns, if any
(what a `dict.update` leaves at `k`). -/
def lastGet : List (String × String) → String → Option String
  | [], _ => none
  | p :: rest, k =>
    match lastGet rest k with
    | some v => some v
    | none => if p.fst == k then some p.snd else none

/-- The header dict literal of `_post` (lines 51-55). -/
def baseHeaders : List (String × String) :=
  [("Content-Type", "application/json"),
   ("Accept", "application/json, text/event-stream"),
   ("mcp-protocol-version", MCP_VERSION)]

/-- Header construction of `_post` (lines 51-59): the three fixed headers,
then `mcp-session-id` when `self.session_id` is truthy (non-`None` and
non-empty), then `headers.update(extra_headers)`. -/
def buildHeaders (sid : Option String) (extra : List (String × String)) :
    List (String × String) :=
  let h2 :=
    match sid with
    | some s => if s = "" then baseHeaders else dictSet baseHeaders "mcp-session-id" s
    | none => baseHeaders
  dictUpdate h2 extra

/-- An outgoing HTTP POST as assembled by `_post`. -/
structure Request where
  url : String
  headers : List (String × String)
  payload : Json

/-- The request `self.http.post(self.base_url, json=payload, headers=headers)`
sends. -/
def buildRequest (st : ClientState) (payload : Json) (extra : List (String × String)) :
    Request :=
  { url := st.base_url, headers := buildHeaders st.session_id extra, payload := payload }

/-- A raw transport reply: status, response-header lookup (`resp.headers.get`,
case-insensitivity folded into the function) and body text. -/
structure RawReply where
  status : Nat
  headers : String → Option String
  body : String

/-- Lines 67-70 of `_post`: `sid = resp.headers.get("mcp-session-id")`;
`if sid: self.session_id = sid` — the empty string is falsy, so it leaves
the stored token unchanged. -/
def updateSession (st : ClientState) (r : RawReply) : ClientState :=
  match r.headers "mcp-session-id" with
  | some sid => if sid = "" then st else { st with session_id := some sid }
  | none => st

/-- One iteration of the SSE loop (lines 74-79): a line contributes a message
exactly when it starts with `data:` and the rest, stripped, parses as JSON;
the `except: pass` makes a failed parse contribute nothing. -/
def sseLine (line : String) : Option Json :=
  if pyStartsWith line "data:" then json_loads (pyStrip (strDrop line 5)) else none

/-- The `messages` list built by the loop of lines 73-79, as the source
builds it: a fold that appends each successfully parsed `data:` payload. -/
def sseMessages (body : String) : List Json :=
  (pySplitLines body).foldl
    (fun acc line =>
      match sseLine line with
      | some m => acc ++ [m]
      | none => acc) []

/-- Specification-side description of the same list: the parseable `data:`
lines of the body, in order. -/
def sseEvents (body : String) : List Json :=
  (pySplitLines body).filterMap sseLine

/-- Lines 72-88 of `_post`: return the last SSE message when the loop
collected any, otherwise fall back to parsing the whole body, otherwise
raise `Unexpected MCP response` with the first 200 characters. -/
def decodeBody (body : String) : Except MCPError Json :=
  match (sseMessages body).getLast? with
  | some m => Except.ok m
  | none =>
    match json_loads body with
    | some v => Except.ok v
    | none => Except.error (.unexpectedResponse (strTake body 200))

/-- Lines 62-88 of `_post` after the reply arrives: on status ≥ 400 raise
`MCP HTTP {status}` with the first 300 characters of the body *before*
the session-id capture; otherwise capture the session id and decode. -/
def postProcess (st : ClientState) (r : RawReply) : ClientState × Except MCPError Json :=
  if r.status ≥ 400 then
    (st, Except.error (.httpError r.status (strTake r.body 300)))
  else
    (updateSession st r, decodeBody r.body)

/-- One `_post` call as a whole: the request it sends and, given the oracle
reply, the state transition and decoded result.  No retry: one request,
one decode. -/
def postCall (st : ClientState) (payload : Json) (r : RawReply) :
    Request × ClientState × Except MCPError Json :=
  (buildRequest st payload [], postProcess st r)

/-- The JSON-RPC envelope literal of `initialize` (lines 94-103). -/
def initializePayload : Json :=
  .obj [("jsonrpc", .str "2.0"), ("id", .num "1"), ("method", .str "initialize"),
        ("params", .obj [("protocolVersion", .str MCP_VERSION),
                         ("capabilities", .obj []),
                         ("clientInfo", .obj [("name", .str "azure-http-client"),
                                              ("version", .str "1.0")])])]

/-- The JSON-RPC envelope literal of `list_tools` (line 110). -/
def listToolsPayload : Json :=
  .obj [("jsonrpc", .str "2.0"), ("id", .num "2"), ("method", .str "tools/list"),
        ("params", .obj [])]

/-- The JSON-RPC envelope literal of `call_tool` (lines 115-120). -/
def callToolPayload (name : String) (arguments : Json) : Json :=
  .obj [("jsonrpc", .str "2.0"), ("id", .num "3"), ("method", .str "tools/call"),
        ("params", .obj [("name", .str name), ("arguments", arguments)])]

/-- Operation `initialize()`: build the envelope and perform one `_post`. -/
def initializeCall (st : ClientState) (r : RawReply) :
    Request × ClientState × Except MCPError Json :=
  postCall st initializePayload r

/-- Operation `list_tools()`: build the envelope and perform one `_post`. -/
def listToolsCall (st : ClientState) (r : RawReply) :
    Request × ClientState × Except MCPError Json :=
  postCall st listToolsPayload r

/-- Operation `call_tool(name, arguments)`: build the envelope and perform one
`_post`. -/
def callToolCall (name : String) (arguments : Json) (st : ClientState) (r : RawReply) :
    Request × ClientState × Except MCPError Json :=
  postCall st (callToolPayload name arguments) r

/-- The session token a reply contributes to the store: its nonempty
`mcp-session-id` header, and only when the status check did not raise. -/
def sidOf (r : RawReply) : Option String :=
  if r.status < 400 then
    match r.headers "mcp-session-id" with
    | some s => if s = "" then none else some s
    | none => none
  else none

/-- The state after one exchange (the decoded result discarded). -/
def stepState (st : ClientState) (r : RawReply) : ClientState :=
  (postProcess st r).fst

/-- The state after a whole sequence of exchanges on one session. -/
def runReplies (st : ClientState) (rs : List RawReply) : ClientState :=
  rs.foldl stepState st

/-- The most recent stored token after a sequence of replies: the last
nonempty `mcp-session-id` header among the status < 400 replies. -/
def lastSid (rs : List RawReply) : Option String :=
  (rs.filterMap sidOf).getLast?

/-- Field lookup in a JSON object (first occurrence of the key). -/
def jGet (j : Json) (k : String) : Option Json :=
  match j with
  | .obj fields => (fields.find? (fun p => p.fst == k)).map (fun p => p.snd)
  | _ => none

theorem foldl_collect (g : String → Option Json) (xs : List String) (acc : List Json) :
    xs.foldl (fun a x => match g x with | some m => a ++ [m] | none => a) acc
      = acc ++ xs.filterMap g := by
  induction xs generalizing acc with
  | nil => simp
  | cons x xs ih =>
    rw [List.foldl_cons, List.filterMap_cons]
    cases hx : g x with
    | none => simp [ih]
    | some m => simp [ih]

theorem sseMessages_eq (body : String) : sseMessages body = sseEvents body := by
  unfold sseMessages sseEvents
  rw [foldl_collect]
  simp

theorem decodeBody_last (body : String) (v : Json)
    (h : (sseEvents body).getLast? = some v) : decodeBody body = Except.ok v := by
  unfold decodeBody
  rw [sseMessages_eq, h]

theorem decodeBody_noSse (body : String) (h : sseEvents body = []) :
    decodeBody body =
      match json_loads body with
      | some v => Except.ok v
      | none => Except.error (.unexpectedResponse (strTake body 200)) := by
  unfold decodeBody
  rw [sseMessages_eq, h]
  rfl

theorem postProcess_lt (st : ClientState) (r : RawReply) (h : r.status < 400) :
    postProcess st r = (updateSession st r, decodeBody r.body) := by
  unfold postProcess
  rw [if_neg (by omega)]

theorem postProcess_ge (st : ClientState) (r : RawReply) (h : 400 ≤ r.status) :
    postProcess st r = (st, Except.error (.httpError r.status (strTake r.body 300))) := by
  unfold postProcess
  rw [if_pos h]

theorem updateSession_stores (st : ClientState) (r : RawReply) (s : String)
    (h : r.headers "mcp-session-id" = some s) (hne : s ≠ "") :
    updateSession st r = { st with session_id := some s } := by
  simp [updateSession, h, hne]

theorem updateSession_keeps (st : ClientState) (r : RawReply)
    (h : r.headers "mcp-session-id" = none ∨ r.headers "mcp-session-id" = some "") :
    updateSession st r = st := by
  rcases h with h | h <;> simp [updateSession, h]

theorem stepState_sid (st : ClientState) (r : RawReply) :
    (stepState st r).session_id =
      match sidOf r with
      | some a => some a
      | none => st.session_id := by
  unfold stepState
  by_cases h : 400 ≤ r.status
  · rw [postProcess_ge st r h]
    simp [sidOf, Nat.not_lt.mpr h]
  · have hlt : r.status < 400 := by omega
    rw [postProcess_lt st r hlt]
    simp only [sidOf, if_pos hlt]
    cases hh : r.headers "mcp-session-id" with
    | none => simp [updateSession, hh]
    | some s =>
      by_cases hs : s = ""
      · simp [updateSession, hh, hs]
      · simp [updateSession, hh, hs]

theorem getLast?_cons_getD {α : Type} (a : α) (l : List α) :
    (a :: l).getLast? = some (l.getLast?.getD a) := by
  induction l generalizing a with
  | nil => rfl
  | cons b l ih =>
    rw [List.getLast?_cons_cons, ih b]
    simp

theorem mem_of_getLast?_eq {α : Type} {l : List α} {a : α}
    (h : l.getLast? = some a) : a ∈ l := by
  induction l with
  | nil => simp at h
  | cons b l ih =>
    rw [getLast?_cons_getD] at h
    cases hl : l.getLast? with
    | none =>
      rw [hl] at h
      simp at h
      simp [h]
    | some c =>
      rw [hl] at h
      simp at h
      subst h
      exact List.mem_cons_of_mem b (ih hl)

theorem runReplies_sid (rs : List RawReply) (st : ClientState) :
    (runReplies st rs).session_id =
      match lastSid rs with
      | some t => some t
      | none => st.session_id := by
  induction rs generalizing st with
  | nil => rfl
  | cons r rs ih =>
    show (runReplies (stepState st r) rs).session_id = _
    rw [ih]
    unfold lastSid
    rw [List.filterMap_cons]
    cases hr : sidOf r with
    | none =>
      cases hl : (rs.filterMap sidOf).getLast? with
      | none => simp [lastSid, hl, stepState_sid, hr]
      | some t => simp [lastSid, hl]
    | some a =>
      rw [getLast?_cons_getD]
      cases hl : (rs.filterMap sidOf).getLast? with
      | none => simp [lastSid, hl, stepState_sid, hr]
      | some t => simp [lastSid, hl]

theorem lastSid_ne_empty (rs : List RawReply) (t : String)
    (h : lastSid rs = some t) : t ≠ "" := by
  have hm : t ∈ rs.filterMap sidOf := mem_of_getLast?_eq h
  obtain ⟨r, _, hsid⟩ := List.mem_filterMap.mp hm
  unfold sidOf at hsid
  by_cases hst : r.status < 400
  · rw [if_pos hst] at hsid
    cases hh : r.headers "mcp-session-id" with
    | none => rw [hh] at hsid; simp at hsid
    | some s =>
      rw [hh] at hsid
      by_cases hs : s = ""
      · simp [hs] at hsid
      · simp [hs] at hsid
        rw [← hsid]
        exact hs
  · rw [if_neg hst] at hsid; simp at hsid

theorem find?_map_set (d : List (String × String)) (k v : String)
    (h : d.any (fun p => p.fst == k) = true) :
    (d.map (fun p => if p.fst == k then (k, v) else p)).find? (fun p => p.fst == k)
      = some (k, v) := by
  induction d with
  | nil => simp at h
  | cons p d ih =>
    rw [List.map_cons]
    by_cases hp : (p.fst == k) = true
    · rw [if_pos hp, List.find?_cons]
      simp
    · rw [if_neg hp, List.find?_cons]
      rw [List.any_cons] at h
      simp only [hp] at h ⊢
      simp only [Bool.false_or] at h
      exact ih h

theorem find?_append_new (d : List (String × String)) (k v : String)
    (h : d.any (fun p => p.fst == k) = false) :
    (d ++ [(k, v)]).find? (fun p => p.fst == k) = some (k, v) := by
  induction d with
  | nil =>
    rw [List.nil_append, List.find?_cons]
    simp
  | cons p d ih =>
    rw [List.any_cons] at h
    have hp : (p.fst == k) = false := by
      cases hpk : p.fst == k
      · rfl
      · rw [hpk] at h; simp at h
    rw [List.cons_append, List.find?_cons, hp]
    apply ih
    rw [hp] at h
    simpa using h

theorem dictGet_dictSet_self (d : List (String × String)) (k v : String) :
    dictGet (dictSet d k v) k = some v := by
  unfold dictGet dictSet
  by_cases h : d.any (fun p => p.fst == k) = true
  · rw [if_pos h, find?_map_set d k v h]
    rfl
  · have hf : d.any (fun p => p.fst == k) = false := by
      cases hd : d.any (fun p => p.fst == k)
      · rfl
      · exact absurd hd h
    rw [if_neg h, find?_append_new d k v hf]
    rfl

theorem find?_map_set_other (d : List (String × String)) (k v k' : String)
    (hne : k' ≠ k) :
    (d.map (fun p => if p.fst == k then (k, v) else p)).find? (fun p => p.fst == k')
      = d.find? (fun p => p.fst == k') := by
  induction d with
  | nil => rfl
  | cons p d ih =>
    rw [List.map_cons]
    by_cases hp : (p.fst == k) = true
    · rw [if_pos hp]
      have hpk : p.fst = k := eq_of_beq hp
      have h1 : ((k : String) == k') = false := beq_eq_false_iff_ne.mpr (Ne.symm hne)
      have h2 : (p.fst == k') = false := by rw [hpk]; exact h1
      rw [List.find?_cons, List.find?_cons]
      simp only [h1, h2]
      exact ih
    · rw [if_neg hp]
      rw [List.find?_cons, List.find?_cons]
      cases hq : p.fst == k'
      · exact ih
      · rfl

theorem dictGet_dictSet_other (d : List (String × String)) (k v k' : String)
    (hne : k' ≠ k) :
    dictGet (dictSet d k v) k' = dictGet d k' := by
  unfold dictGet dictSet
  by_cases h : d.any (fun p => p.fst == k) = true
  · rw [if_pos h, find?_map_set_other d k v k' hne]
  · rw [if_neg h, List.find?_append]
    have hone : List.find? (fun p => p.fst == k') [(k, v)] = none := by
      rw [List.find?_cons]
      have h1 : ((k : String) == k') = false := beq_eq_false_iff_ne.mpr (Ne.symm hne)
      simp only [h1]
      rfl
    rw [hone, Option.or_none]

theorem dictGet_dictUpdate (extra : List (String × String))
    (d : List (String × String)) (k : String) :
    dictGet (dictUpdate d extra) k =
      match lastGet extra k with
      | some v => some v
      | none => dictGet d k := by
  induction extra generalizing d with
  | nil => rfl
  | cons p rest ih =>
    show dictGet (dictUpdate (dictSet d p.fst p.snd) rest) k = _
    rw [ih]
    cases hl : lastGet rest k with
    | some v => simp [lastGet, hl]
    | none =>
      by_cases hp : (p.fst == k) = true
      · have hpk : p.fst = k := eq_of_beq hp
        simp only [lastGet, hl, hp]
        rw [← hpk]
        exact dictGet_dictSet_self d p.fst p.snd
      · simp only [lastGet, hl, hp]
        have hne : k ≠ p.fst := by
          intro he
          exact hp (by rw [he]; exact beq_self_eq_true p.fst)
        simp [dictGet_dictSet_other d p.fst p.snd k hne]

theorem dictUpdate_nil (d : List (String × String)) : dictUpdate d [] = d := rfl

theorem buildHeaders_nil_none : buildHeaders none [] = baseHeaders := rfl

theorem buildHeaders_nil_some (s : String) :
    buildHeaders (some s) [] =
      if s = "" then baseHeaders else dictSet baseHeaders "mcp-session-id" s := rfl

theorem buildHeaders_defaults (sid : Option String) :
    dictGet (buildHeaders sid []) "Content-Type" = some "application/json" ∧
    dictGet (buildHeaders sid []) "Accept" = some "application/json, text/event-stream" ∧
    dictGet (buildHeaders sid []) "mcp-protocol-version" = some "2024-11-05" := by
  cases sid with
  | none => exact ⟨rfl, rfl, rfl⟩
  | some s =>
    rw [buildHeaders_nil_some]
    by_cases hs : s = ""
    · rw [if_pos hs]
      exact ⟨rfl, rfl, rfl⟩
    · rw [if_neg hs]
      refine ⟨?_, ?_, ?_⟩ <;>
        rw [dictGet_dictSet_other baseHeaders "mcp-session-id" s _ (by decide)] <;> rfl

theorem buildHeaders_sid (t : String) (hne : t ≠ "") :
    dictGet (buildHeaders (some t) []) "mcp-session-id" = some t := by
  rw [buildHeaders_nil_some, if_neg hne]
  exact dictGet_dictSet_self baseHeaders "mcp-session-id" t

theorem buildHeaders_no_sid (sid : Option String) (h : sid = none ∨ sid = some "") :
    dictGet (buildHeaders sid []) "mcp-session-id" = none := by
  rcases h with h | h <;> subst h
  · rfl
  · rw [buildHeaders_nil_some, if_pos rfl]
    rfl

theorem strTake_length (s : String) (n : Nat) : (strTake s n).length ≤ n := by
  show (s.toList.take n).length ≤ n
  rw [List.length_take]
  exact inf_le_left

/-- A fresh client, as `MCPHTTPClient(MCP_URL)` builds one. -/
def exClient : ClientState := mkClient "https://example.invalid/mcp"

/-- A reply header map carrying no entries. -/
def noHdr : String → Option String := fun _ => none

/-- A reply header map carrying only `mcp-session-id: v`. -/
def hdrSid (v : String) : String → Option String :=
  fun k => if k = "mcp-session-id" then some v else none

/-- An SSE-framed reply: three `data:` lines, the middle one malformed. -/
def rSse : RawReply := ⟨200, noHdr, "data: 1\ndata: oops\ndata: 2"⟩

/-- A successful reply whose body is neither SSE nor JSON. -/
def rHello : RawReply := ⟨200, noHdr, "hello"⟩

/-- A failed reply with a plain-text body. -/
def rErr : RawReply := ⟨500, noHdr, "internal error"⟩

/-- A successful reply issuing session token `A`. -/
def rTokA : RawReply := ⟨200, hdrSid "A", "1"⟩

/-- An error-status reply that nevertheless carries session token `B`. -/
def rTok500B : RawReply := ⟨500, hdrSid "B", "err"⟩

/-- A successful reply whose session-token header is the empty string. -/
def rTokEmpty : RawReply := ⟨200, hdrSid "", "1"⟩

/-- An undecodable successful reply that carries session token `tok`. -/
def rHelloTok : RawReply := ⟨200, hdrSid "tok", "hello"⟩

/-- C1: for every reply with status < 400 whose body contains at least one
`data:` line whose stripped payload parses as JSON, `_post` returns the JSON
value of the last such parseable line; `data:` lines that fail to parse are
silently discarded (the `except: pass`) and never cause an error. -/
theorem mcp_C1 (st : ClientState) (r : RawReply) (v : Json)
    (hs : r.status < 400) (hl : (sseEvents r.body).getLast? = some v) :
    postProcess st r = (updateSession st r, Except.ok v) := by
  rw [postProcess_lt st r hs, decodeBody_last r.body v hl]

/-- C1 witness: on the body `data: 1`, `data: oops`, `data: 2` the client
returns the JSON `2` of the last parseable line. -/
theorem mcp_C1_witness :
    postProcess exClient rSse = (exClient, Except.ok (Json.num "2")) :=
  mcp_C1 exClient rSse (Json.num "2") (by decide) rfl

/-- C2 (amended): for every reply with status < 400 whose body has zero
parseable `data:` lines, `_post` parses the whole body as one JSON document
and returns it on success; if that also fails it raises the unexpected
response `ProtocolError` carrying at most the first 200 characters of the
body. -/
theorem mcp_C2 (st : ClientState) (r : RawReply)
    (hs : r.status < 400) (he : sseEvents r.body = []) :
    postProcess st r = (updateSession st r,
      match json_loads r.body with
      | some v => Except.ok v
      | none => Except.error (.unexpectedResponse (strTake r.body 200))) ∧
    (strTake r.body 200).length ≤ 200 := by
  refine ⟨?_, strTake_length r.body 200⟩
  rw [postProcess_lt st r hs, decodeBody_noSse r.body he]

/-- C2 witness: the body `hello` (no `data:` line, not JSON) produces the
unexpected-response error carrying the body. -/
theorem mcp_C2_witness :
    postProcess exClient rHello
      = (exClient, Except.error (MCPError.unexpectedResponse "hello")) :=
  (mcp_C2 exClient rHello (by decide) rfl).1

/-- A body that is a valid JSON document *and* contains a parseable `data:`
line: `str.splitlines` breaks at the U+0085 (NEL) characters inside the
string literal, although `json.loads` (strict mode rejects only code points
below U+0020) accepts them, so the middle line is `data: 5`. -/
def sseBodyTrap : String := "[\"x\u0085data: 5\u0085\", 1]"

/-- C2 counterexample: a status-200 reply whose body is valid JSON is *not*
returned verbatim — the `data:` line hidden by U+0085 line separators wins,
so the claim's parenthetical "for every valid-JSON body with status < 400,
decode returns that JSON verbatim" fails on this input. -/
theorem mcp_C2_cex :
    (200 : Nat) < 400 ∧
    json_loads sseBodyTrap
      = some (Json.arr [Json.str "x\u0085data: 5\u0085", Json.num "1"]) ∧
    postProcess exClient ⟨200, noHdr, sseBodyTrap⟩
      = (exClient, Except.ok (Json.num "5")) ∧
    Json.num "5" ≠ Json.arr [Json.str "x\u0085data: 5\u0085", Json.num "1"] :=
  ⟨by decide, rfl, rfl, fun h => Json.noConfusion h⟩

/-- C3: for every reply with status ≥ 400, `_post` raises the HTTP
`ProtocolError` carrying the status code and at most the first 300
characters of the body, leaves the state unchanged, and never parses the
body: the outcome depends only on the first 300 characters. -/
theorem mcp_C3 (st : ClientState) (r : RawReply) (h : 400 ≤ r.status) :
    postProcess st r = (st, Except.error (.httpError r.status (strTake r.body 300))) ∧
    (strTake r.body 300).length ≤ 300 ∧
    ∀ body2 : String, strTake body2 300 = strTake r.body 300 →
      postProcess st { r with body := body2 } = postProcess st r := by
  refine ⟨postProcess_ge st r h, strTake_length r.body 300, ?_⟩
  intro body2 hb
  rw [postProcess_ge st r h, postProcess_ge st { r with body := body2 } h, hb]

/-- C3 witness: status 500 with body `internal error` raises the HTTP
error carrying 500 and the body. -/
theorem mcp_C3_witness :
    postProcess exClient rErr
      = (exClient, Except.error (MCPError.httpError 500 "internal error")) :=
  (mcp_C3 exClient rErr (by decide)).1

/-- The trace refuting C4 as stated: a token on a 200 reply, then a token on
a 500 reply, then an empty token on a 200 reply. -/
def trapTrace : List RawReply := [rTokA, rTok500B, rTokEmpty]

/-- The last session-token header received on any reply of a trace (the
claim's "most recently received token", with no status or emptiness
qualification). -/
def lastHdrToken (rs : List RawReply) : Option String :=
  (rs.filterMap (fun r => r.headers "mcp-session-id")).getLast?

/-- C4 counterexample: after the trace `trapTrace` the most recently
received session-token header is the empty string (and the most recent
nonempty one is `B`, on the 500 reply), yet the next outgoing request
carries `A` — the token of the last status < 400 reply with a nonempty
header — so the claim as stated fails. -/
theorem mcp_C4_cex :
    lastHdrToken trapTrace = some "" ∧
    rTok500B.headers "mcp-session-id" = some "B" ∧
    (runReplies exClient trapTrace).session_id = some "A" ∧
    dictGet (buildRequest (runReplies exClient trapTrace) listToolsPayload []).headers
      "mcp-session-id" = some "A" ∧
    ("A" : String) ≠ "B" ∧ ("A" : String) ≠ "" :=
  ⟨rfl, rfl, rfl, rfl, by decide, by decide⟩

/-- C4 (amended): once some status < 400 reply has carried a nonempty
session-token header, every subsequent outgoing request of the session
carries the most recently received such token as the `mcp-session-id`
header; and a reply carrying no session-token header leaves the stored
token unchanged. -/
theorem mcp_C4 :
    (∀ (st : ClientState) (rs : List RawReply) (t : String) (payload : Json),
      lastSid rs = some t →
      dictGet (buildRequest (runReplies st rs) payload []).headers "mcp-session-id"
        = some t) ∧
    (∀ (st : ClientState) (r : RawReply),
      r.headers "mcp-session-id" = none →
      ((postProcess st r).fst).session_id = st.session_id) := by
  constructor
  · intro st rs t payload h
    have hsid : (runReplies st rs).session_id = some t := by
      rw [runReplies_sid, h]
    show dictGet (buildHeaders (runReplies st rs).session_id []) "mcp-session-id" = some t
    rw [hsid]
    exact buildHeaders_sid t (lastSid_ne_empty rs t h)
  · intro st r h
    by_cases hge : 400 ≤ r.status
    · rw [postProcess_ge st r hge]
    · rw [postProcess_lt st r (by omega)]
      show (updateSession st r).session_id = st.session_id
      rw [updateSession_keeps st r (Or.inl h)]

/-- C4 witness: after one reply carrying token `A`, the next request carries
`A`; a reply without the header leaves the (empty) store unchanged. -/
theorem mcp_C4_witness :
    dictGet (buildRequest (runReplies exClient [rTokA]) listToolsPayload []).headers
      "mcp-session-id" = some "A" ∧
    (postProcess exClient rSse).fst.session_id = exClient.session_id :=
  ⟨mcp_C4.1 exClient [rTokA] "A" listToolsPayload rfl, mcp_C4.2 exClient rSse rfl⟩

/-- C5 counterexample: a 500 reply carrying token `B` does *not* update the
stored token (the raise happens before the capture), and a 200 reply whose
token header is the empty string does not update it either, refuting the
claim's "including sends whose reply has status >= 400". -/
theorem mcp_C5_cex :
    rTok500B.status ≥ 400 ∧
    rTok500B.headers "mcp-session-id" = some "B" ∧
    (postProcess exClient rTok500B).fst.session_id = none ∧
    rTokEmpty.headers "mcp-session-id" = some "" ∧
    (postProcess exClient rTokEmpty).fst.session_id = none :=
  ⟨by decide, rfl, rfl, rfl, rfl⟩

/-- C5 (amended): on every send whose reply has status < 400 and carries a
nonempty session-token header, the stored token is updated to that value;
a send whose reply has status ≥ 400 leaves the whole state — in particular
the stored token — unchanged. -/
theorem mcp_C5 :
    (∀ (st : ClientState) (r : RawReply) (s : String),
      r.status < 400 → r.headers "mcp-session-id" = some s → s ≠ "" →
      ((postProcess st r).fst).session_id = some s) ∧
    (∀ (st : ClientState) (r : RawReply),
      400 ≤ r.status → (postProcess st r).fst = st) := by
  constructor
  · intro st r s hlt hh hne
    rw [postProcess_lt st r hlt]
    show (updateSession st r).session_id = some s
    rw [updateSession_stores st r s hh hne]
  · intro st r h
    rw [postProcess_ge st r h]

/-- C5 witness: a 200 reply with token `A` stores `A`; a 500 reply leaves
the state unchanged. -/
theorem mcp_C5_witness :
    (postProcess exClient rTokA).fst.session_id = some "A" ∧
    (postProcess exClient rTok500B).fst = exClient :=
  ⟨mcp_C5.1 exClient rTokA "A" (by decide) rfl (by decide),
   mcp_C5.2 exClient rTok500B (by decide)⟩

/-- C6: every outgoing request carries `Content-Type: application/json`,
`Accept: application/json, text/event-stream` and
`mcp-protocol-version: 2024-11-05`; `extra_headers` is applied last, so a
key it contains gets the value of its last entry, and every other key keeps
the default headers' value. -/
theorem mcp_C6 (sid : Option String) (extra : List (String × String)) (k : String) :
    dictGet (buildHeaders sid extra) k =
      (match lastGet extra k with
       | some v => some v
       | none => dictGet (buildHeaders sid []) k) ∧
    dictGet (buildHeaders sid []) "Content-Type" = some "application/json" ∧
    dictGet (buildHeaders sid []) "Accept" = some "application/json, text/event-stream" ∧
    dictGet (buildHeaders sid []) "mcp-protocol-version" = some "2024-11-05" := by
  refine ⟨?_, buildHeaders_defaults sid⟩
  exact dictGet_dictUpdate extra _ k

/-- C7: the three operations send JSON-RPC envelopes
`jsonrpc = "2.0"`, numeric id, their method name and their params —
`initialize` with `protocolVersion`/`capabilities`/`clientInfo`,
`tools/list` with empty params, `tools/call` with the tool name and
arguments — and each is exactly one build-request/decode exchange. -/
theorem mcp_C7 (st : ClientState) (r : RawReply) (name : String) (args : Json) :
    initializeCall st r = (buildRequest st initializePayload [], postProcess st r) ∧
    listToolsCall st r = (buildRequest st listToolsPayload [], postProcess st r) ∧
    callToolCall name args st r
      = (buildRequest st (callToolPayload name args) [], postProcess st r) ∧
    jGet initializePayload "jsonrpc" = some (Json.str "2.0") ∧
    jGet initializePayload "id" = some (Json.num "1") ∧
    jGet initializePayload "method" = some (Json.str "initialize") ∧
    jGet initializePayload "params"
      = some (Json.obj [("protocolVersion", Json.str "2024-11-05"),
                        ("capabilities", Json.obj []),
                        ("clientInfo", Json.obj [("name", Json.str "azure-http-client"),
                                                 ("version", Json.str "1.0")])]) ∧
    jGet listToolsPayload "jsonrpc" = some (Json.str "2.0") ∧
    jGet listToolsPayload "id" = some (Json.num "2") ∧
    jGet listToolsPayload "method" = some (Json.str "tools/list") ∧
    jGet listToolsPayload "params" = some (Json.obj []) ∧
    jGet (callToolPayload name args) "jsonrpc" = some (Json.str "2.0") ∧
    jGet (callToolPayload name args) "id" = some (Json.num "3") ∧
    jGet (callToolPayload name args) "method" = some (Json.str "tools/call") ∧
    jGet (callToolPayload name args) "params"
      = some (Json.obj [("name", Json.str name), ("arguments", args)]) :=
  ⟨rfl, rfl, rfl, rfl, rfl, rfl, rfl, rfl, rfl, rfl, rfl, rfl, rfl, rfl, rfl⟩

/-- C8: when `_post` raises the unexpected-response error (status < 400, no
parseable `data:` line, whole-body parse failed), the session token of the
reply — a nonempty `mcp-session-id` header — has already been stored in the
resulting state; when it raises because status ≥ 400, the state, and so the
stored token, is unchanged even if the reply carries a token header. -/
theorem mcp_C8 :
    (∀ (st : ClientState) (r : RawReply) (s : String),
      r.status < 400 → sseEvents r.body = [] → json_loads r.body = none →
      postProcess st r
        = (updateSession st r,
           Except.error (.unexpectedResponse (strTake r.body 200))) ∧
      (r.headers "mcp-session-id" = some s → s ≠ "" →
        ((postProcess st r).fst).session_id = some s)) ∧
    (∀ (st : ClientState) (r : RawReply),
      400 ≤ r.status → (postProcess st r).fst = st) := by
  constructor
  · intro st r s hlt he hj
    constructor
    · rw [postProcess_lt st r hlt, decodeBody_noSse r.body he, hj]
    · intro hh hne
      rw [postProcess_lt st r hlt]
      show (updateSession st r).session_id = some s
      rw [updateSession_stores st r s hh hne]
  · intro st r h
    rw [postProcess_ge st r h]

/-- C8 witness: the undecodable 200 reply carrying token `tok` raises the
unexpected-response error with the token already stored; the 500 reply
carrying token `B` leaves the state unchanged. -/
theorem mcp_C8_witness :
    postProcess exClient rHelloTok
      = (updateSession exClient rHelloTok,
         Except.error (MCPError.unexpectedResponse "hello")) ∧
    (postProcess exClient rHelloTok).fst.session_id = some "tok" ∧
    (postProcess exClient rTok500B).fst = exClient :=
  ⟨(mcp_C8.1 exClient rHelloTok "tok" (by decide) rfl rfl).1,
   (mcp_C8.1 exClient rHelloTok "tok" (by decide) rfl rfl).2 rfl (by decide),
   mcp_C8.2 exClient rTok500B (by decide)⟩

/-- C9: the stored token is never the empty string — `if sid:` only stores
truthy values, so the no-empty-token invariant is preserved by every
exchange — and when the stored token is absent or empty (and
`extra_headers` does not supply one), no `mcp-session-id` request header
is attached. -/
theorem mcp_C9 :
    (∀ (st : ClientState) (r : RawReply),
      st.session_id ≠ some "" → ((postProcess st r).fst).session_id ≠ some "") ∧
    (∀ (sid : Option String) (extra : List (String × String)),
      (sid = none ∨ sid = some "") → lastGet extra "mcp-session-id" = none →
      dictGet (buildHeaders sid extra) "mcp-session-id" = none) := by
  constructor
  · intro st r h
    by_cases hge : 400 ≤ r.status
    · rw [postProcess_ge st r hge]
      exact h
    · rw [postProcess_lt st r (by omega)]
      show (updateSession st r).session_id ≠ some ""
      cases hh : r.headers "mcp-session-id" with
      | none =>
        rw [updateSession_keeps st r (Or.inl hh)]
        exact h
      | some s =>
        by_cases hs : s = ""
        · rw [updateSession_keeps st r (Or.inr (by rw [hh, hs]))]
          exact h
        · rw [updateSession_stores st r s hh hs]
          intro hc
          injection hc with hc2
          exact hs hc2
  · intro sid extra h hl
    show dictGet (dictUpdate _ extra) "mcp-session-id" = none
    rw [dictGet_dictUpdate, hl]
    exact buildHeaders_no_sid sid h

/-- C9 witness: a fresh client (no token) keeps a non-empty-or-absent token
after receiving token `A`, and attaches no `mcp-session-id` header. -/
theorem mcp_C9_witness :
    (postProcess exClient rTokA).fst.session_id ≠ some "" ∧
    dictGet (buildHeaders none []) "mcp-session-id" = none :=
  ⟨mcp_C9.1 exClient rTokA (fun h => Option.noConfusion h),
   mcp_C9.2 none [] (Or.inl rfl) rfl⟩

/-- C10: releasing the connection is idempotent — `__aexit__` closes the
connection only when one is held and then clears the handle, so after one
release the handle is empty and a second release (or a release when no
connection was opened) performs no close action and does not fail. -/
theorem mcp_C10 (st : ClientState) :
    aexit (aexit st).fst = ((aexit st).fst, false) ∧
    (aexit st).fst.http = none ∧
    (st.http = none → aexit st = (st, false)) := by
  refine ⟨?_, ?_, ?_⟩
  · cases hst : st.http <;> simp [aexit, hst]
  · cases hst : st.http <;> simp [aexit, hst]
  · intro h
    simp [aexit, h]

/-- C10 witness: a client that never opened a connection releases as a
no-op. -/
theorem mcp_C10_witness : aexit exClient = (exClient, false) :=
  (mcp_C10 exClient).2.2 rfl
